import Mathlib

/-!
# Verification of the FPL backend's normalization and reconciliation pipeline

Shallow embedding of the core pipeline of this repository:

* `database.py` — `safe_int` / `safe_str` scalar coercion, active-chip
  normalization, the storage entry points (`store_global_players`,
  `store_chip_usage_normalized`, `store_gameweek_data_normalized`) and the
  smart gameweek selector (`get_smart_gameweek_for_standings`,
  `get_current_gameweek`).
* `fpl_service.py` — `FPLService.get_current_gameweek` (retry/fallback),
  the captain / vice-captain resolution of the picks payload, and the
  orchestration `process_league_data_normalized` (stage ordering, per-entry
  failure isolation), modelled with an explicit store-call trace.

External I/O (HTTP fetches, database upserts) is modelled by explicit
parameters giving each call's outcome; Python scalar values reaching the
coercion helpers are modelled by `PyVal`; IEEE-754 binary64 arithmetic
(pandas `/ 10`, `* 10` on team values) is modelled exactly by `fl64`,
round-to-nearest-ties-to-even on exact integer fractions.
-/

set_option autoImplicit false

namespace FPL

/-! ## Python scalar values and the safe coercions of `database.py` -/

/-- An exact rational written as an explicit integer fraction
(`den` positive in every construction below). Used instead of `ℚ` so that
every arithmetic step reduces inside the kernel. -/
structure Frac where
  num : ℤ
  den : ℤ
  deriving DecidableEq, Repr

/-- A Python scalar as it reaches `safe_int` / `safe_str` in `database.py`:
`None`, an `int`, a `str`, or a `float` (its exact value as a fraction;
`NaN` does not arise in the modelled call sites). -/
inductive PyVal where
  | vNone
  | vInt (n : ℤ)
  | vStr (s : String)
  | vFloat (x : Frac)
  deriving DecidableEq, Repr

/-- Sign handling of Python numeric-string parsing: a leading `-` or `+`. -/
def parseSign : List Char → ℤ × List Char
  | '-' :: rest => (-1, rest)
  | '+' :: rest => (1, rest)
  | cs => (1, cs)

/-- Numeric value of a digit string (assumes every char is a digit). -/
def digitsVal (ds : List Char) : ℤ :=
  ds.foldl (fun a c => a * 10 + ((c.toNat : ℤ) - 48)) 0

/-- The surrounding whitespace Python's `int()` / `float()` strip from a
string: the ASCII characters 9–13 and the space (codes 28–31 are
`str.isspace` but are rejected by the numeric constructors). -/
def pyIsSpace (c : Char) : Bool := c = ' ' || (9 ≤ c.toNat && c.toNat ≤ 13)

/-- Strip leading and trailing numeric-constructor whitespace from a
character list. -/
def trimChars (cs : List Char) : List Char :=
  ((cs.dropWhile pyIsSpace).reverse.dropWhile pyIsSpace).reverse

/-- Continuation of a digit run in PEP 515 style: digits with single
underscores allowed only between digits (a first digit has already been
consumed). -/
def digitRun : List Char → Bool
  | [] => true
  | '_' :: (d :: rest) => d.isDigit && digitRun rest
  | ['_'] => false
  | d :: rest => d.isDigit && digitRun rest

/-- A valid Python `digitpart`: one or more decimal digits with single
underscores between digits (`"1_000"` valid; `"_1"`, `"1_"`, `"1__0"`
invalid). -/
def isDigitPart (cs : List Char) : Bool :=
  match cs with
  | [] => false
  | c :: rest => c.isDigit && digitRun rest

/-- Numeric value of a digitpart, ignoring its underscore separators. -/
def digitPartVal (cs : List Char) : ℤ :=
  digitsVal (cs.filter (fun c => c ≠ '_'))

/-- Number of actual digits of a digitpart (underscores excluded). -/
def digitCount (cs : List Char) : ℕ := (cs.filter (fun c => c ≠ '_')).length

/-- Model of Python `int(s)` on an ASCII string: optional surrounding
whitespace, optional sign, then a digitpart (with PEP 515 underscores);
anything else raises (returns `none`). Non-ASCII decimal digits and
whitespace, which Python also accepts, are outside the model — the
theorems below restrict their string inputs to ASCII. -/
def pythonIntOfString (s : String) : Option ℤ :=
  let sd := parseSign (trimChars s.toList)
  if isDigitPart sd.2 then some (sd.1 * digitPartVal sd.2) else none

/-- Model of Python `float(s)` on an ASCII string, as the exact decimal
rational of the literal: optional whitespace and sign, a mantissa of the
forms `digits`, `digits.digits`, `digits.` or `.digits`, and an optional
`e`/`E` exponent with optional sign — all digitparts taking PEP 515
underscores. The `inf`/`nan` literals contain no dot, so they cannot
reach `safe_int`'s float branch, and are not modelled; neither is
non-ASCII input (see `pythonIntOfString`). -/
def pythonFloatOfString (s : String) : Option Frac :=
  let sd := parseSign (trimChars s.toList)
  let mantissa := sd.2.takeWhile (fun c => c ≠ 'e' ∧ c ≠ 'E')
  let expRest := sd.2.dropWhile (fun c => c ≠ 'e' ∧ c ≠ 'E')
  let expVal : Option ℤ :=
    match expRest with
    | [] => some 0
    | _ :: expPart =>
      let se := parseSign expPart
      if isDigitPart se.2 then some (se.1 * digitPartVal se.2) else none
  match expVal with
  | none => none
  | some e =>
    let intPart := mantissa.takeWhile (· ≠ '.')
    let rest := mantissa.dropWhile (· ≠ '.')
    let build : Option (ℤ × ℕ) :=
      match rest with
      | [] => if isDigitPart intPart then some (digitPartVal intPart, 0) else none
      | _ :: fracPart =>
        if (intPart = [] ∨ isDigitPart intPart = true) ∧
            (fracPart = [] ∨ isDigitPart fracPart = true) ∧
            ¬(intPart = [] ∧ fracPart = []) then
          some (digitPartVal intPart * 10 ^ digitCount fracPart + digitPartVal fracPart,
            digitCount fracPart)
        else none
    match build with
    | none => none
    | some md =>
      if 0 ≤ e then some ⟨sd.1 * md.1 * 10 ^ e.toNat, (10 : ℤ) ^ md.2⟩
      else some ⟨sd.1 * md.1, (10 : ℤ) ^ (md.2 + (-e).toNat)⟩

/-- Truncation toward zero, Python `int(x)` on a float. -/
def truncFrac (x : Frac) : ℤ := Int.tdiv x.num x.den

/-! ## IEEE-754 binary64 rounding, as an exact operation on fractions

The team-value pipeline computes `value / 10` (pandas, float64) in the
service and `int(value * 10)` in the store; both operations are correctly
rounded binary64 arithmetic. `fl64` is round-to-nearest-ties-to-even at 53
significand bits (with the subnormal exponent clamp at `-1022`; overflow
to infinity is outside the magnitudes this pipeline handles and is not
modelled). All arithmetic is on the integer numerator/denominator pair. -/

/-- Round-half-even division: the integer nearest `a / b` (with `b > 0`),
ties going to the even neighbour. -/
def rheDiv (a b : ℤ) : ℤ :=
  let f := Int.fdiv a b
  let r := a - f * b
  if 2 * r < b then f
  else if b < 2 * r then f + 1
  else if f % 2 = 0 then f else f + 1

/-- Fuel-driven search upward: for `b ≤ a` (both positive), the `e ≥ 0`
with `2 ^ e * b ≤ a < 2 ^ (e + 1) * b`, maintaining `p = 2 ^ e * b`. -/
def flog2Up (a b : ℤ) : ℕ → ℤ → ℤ → ℤ
  | 0, _, e => e
  | fuel + 1, p, e => if a < 2 * p then e else flog2Up a b fuel (2 * p) (e + 1)

/-- Fuel-driven search downward: for `0 < a < b`, the `e < 0` with
`2 ^ e * b ≤ a < 2 ^ (e + 1) * b`, testing `b ≤ a * s` for `s = 2 ^ (-e)`. -/
def flog2Down (a b : ℤ) : ℕ → ℤ → ℤ → ℤ
  | 0, _, e => e
  | fuel + 1, s, e => if b ≤ a * s then e else flog2Down a b fuel (2 * s) (e - 1)

/-- Computation of `⌊log₂ (a / b)⌋` for positive `a`, `b` within the binary64 exponent
range. -/
def flog2 (a b : ℤ) : ℤ :=
  if b ≤ a then flog2Up a b 1100 b 0 else flog2Down a b 1100 2 (-1)

/-- Binary64 rounding of a positive fraction: round to the nearest
multiple of the unit in the last place of its binade (53-bit significand,
exponent clamped at the subnormal threshold). -/
def fl64Pos (x : Frac) : Frac :=
  let t := max (flog2 x.num x.den) (-1022) - 52
  if 0 ≤ t then ⟨rheDiv x.num (x.den * 2 ^ t.toNat) * 2 ^ t.toNat, 1⟩
  else ⟨rheDiv (x.num * 2 ^ (-t).toNat) x.den, 2 ^ (-t).toNat⟩

/-- Binary64 rounding of a fraction (round-to-nearest, ties-to-even). -/
def fl64 (x : Frac) : Frac :=
  if x.num = 0 then ⟨0, 1⟩
  else if x.num < 0 then
    let y := fl64Pos ⟨-x.num, x.den⟩
    ⟨-y.num, y.den⟩
  else fl64Pos x

/-- Model of `safe_int` from `database.py` (lines 325–333): `None`/empty-string →
default; strings containing `.` go through `int(float(s))` — the parsed
decimal literal is rounded to binary64 by `fl64` before truncating toward
zero; other strings go through `int(s)`; unparseable → default; ints are
returned as is; floats are truncated toward zero. (A literal so large
that binary64 overflows makes the code raise an uncaught `OverflowError`
from `int(inf)`; such magnitudes never arise at the modelled call sites
and are outside the model.) -/
def safe_int (value : PyVal) (default : ℤ) : ℤ :=
  match value with
  | .vNone => default
  | .vInt n => n
  | .vFloat x => truncFrac x
  | .vStr s =>
    if s = "" then default
    else if '.' ∈ s.toList then
      match pythonFloatOfString s with
      | some x => truncFrac (fl64 x)
      | none => default
    else
      match pythonIntOfString s with
      | some n => n
      | none => default

/-- Model of `safe_str` from `database.py` (lines 335–338), at its string-typed call
sites: `None` → default `None`, the empty string → `None`, any other
string is kept. -/
def safe_str (value : Option String) : Option String :=
  match value with
  | none => none
  | some s => if s ≠ "" then some s else none

/-! ## Active-chip normalization (`store_gameweek_data_normalized`, lines 344–347) -/

/-- The value found in a row's `Active chip` cell: Python `None`, a string,
or a (possibly legacy) list whose elements are strings or `None`. -/
inductive ChipState where
  | null
  | scalar (s : String)
  | list (xs : List (Option String))
  deriving DecidableEq, Repr

/-- The list-collapsing step: `active_chip[0] if len(active_chip) > 0 and
active_chip[0] is not None else None`, applied only when the value is a
list. -/
def collapseChipList (v : ChipState) : Option String :=
  match v with
  | .null => none
  | .scalar s => some s
  | .list xs =>
    match xs with
    | [] => none
    | x :: _ => match x with | some s => some s | none => none

/-- Full active-chip normalization: list collapse followed by `safe_str`. -/
def normalizeActiveChip (v : ChipState) : Option String :=
  safe_str (collapseChipList v)

/-! ## Upstream current gameweek (`database.py` 28–56, `fpl_service.py` 23–43) -/

/-- One bootstrap event, with the fields the gameweek scan reads. -/
structure Event where
  id : ℤ
  is_current : Bool
  deriving DecidableEq, Repr

/-- Scan of the bootstrap events: the id of the first event flagged
current, else the fallback 1. -/
def gwFromEvents (events : List Event) : ℤ :=
  match events.find? (fun e => e.is_current) with
  | some e => e.id
  | none => 1

/-- Model of `FPLDatabase.get_current_gameweek`: one fetch of the bootstrap feed
(`none` models any exception); on success the event scan, on failure 1. -/
def dbGetCurrentGW (fetch : Option (List Event)) : ℤ :=
  match fetch with
  | some events => gwFromEvents events
  | none => 1

/-- Python `x or d` on an optional integer (`None` and `0` are falsy). -/
def pyOr (v : Option ℤ) (d : ℤ) : ℤ :=
  match v with
  | none => d
  | some n => if n = 0 then d else n

/-- Model of `FPLService.get_current_gameweek`: up to `max_retries` attempts, each
modelled by an entry of `fetches` (`some events` = successful fetch,
`none` = exception). The first successful fetch is scanned (yielding 1 if
no event is flagged current); if every attempt fails, the result is
`fpl_db.get_current_gameweek() or 1`, supplied here as `db_fallback`. -/
def serviceGetCurrentGW : List (Option (List Event)) → Option ℤ → ℤ
  | [], db_fallback => pyOr db_fallback 1
  | some events :: _, _ => gwFromEvents events
  | none :: rest, db_fallback => serviceGetCurrentGW rest db_fallback

/-! ## The smart gameweek selector (`database.py` 434–477) -/

/-- A persisted `gameweek_data_new` row, restricted to the fields the
selector's queries read. -/
structure GWRow where
  league_id : ℤ
  entry_id : ℤ
  gameweek : ℤ
  points : ℤ
  deriving DecidableEq, Repr

/-- The first store query: does any row of the league at `gw` have
strictly positive points (`.eq('league_id', …).eq('gameweek', …)
.gt('points', 0)`)? -/
def queryCurrentPositive (store : List GWRow) (league gw : ℤ) : Bool :=
  store.any (fun r => r.league_id = league ∧ r.gameweek = gw ∧ 0 < r.points)

/-- The second store query: does the league have any row at all at `gw`? -/
def queryAnyAt (store : List GWRow) (league gw : ℤ) : Bool :=
  store.any (fun r => r.league_id = league ∧ r.gameweek = gw)

/-- The fallback chain of `get_smart_gameweek_for_standings` once no
explicit gameweek applies: current gameweek if it has positive-points
data, else `max 1 (current - 1)` if that gameweek has any data, else the
current gameweek. -/
def smartSelect (store : List GWRow) (league current_gw : ℤ) : ℤ :=
  if queryCurrentPositive store league current_gw then current_gw
  else
    let previous_gw := max 1 (current_gw - 1)
    if queryAnyAt store league previous_gw then previous_gw
    else current_gw

/-- Model of `FPLDatabase.get_smart_gameweek_for_standings`. Here `upstream` is the
result of `self.get_current_gameweek()` (an `Optional[int]`, combined with
`or 1`). The guard `if requested_gameweek:` is Python truthiness: both
`None` and `0` fall through to the smart selection. -/
def get_smart_gameweek_for_standings (store : List GWRow) (upstream : Option ℤ)
    (league_id : ℤ) (requested_gameweek : Option ℤ) : ℤ :=
  match requested_gameweek with
  | some g => if g ≠ 0 then g else smartSelect store league_id (pyOr upstream 1)
  | none => smartSelect store league_id (pyOr upstream 1)

/-! ## The team-value round trip (`fpl_service.py` 194, `database.py` 364) -/

/-- Exact division of a binary64 value by the constant 10, before
rounding. -/
def fracDiv10 (x : Frac) : Frac := ⟨x.num, x.den * 10⟩

/-- Exact multiplication of a binary64 value by the constant 10, before
rounding. -/
def fracMul10 (x : Frac) : Frac := ⟨x.num * 10, x.den⟩

/-- The team-value round trip exactly as the code performs it: the int64
value is converted to float64, divided by 10 in float64 arithmetic
(`fpl_service.py` line 194), later multiplied by 10 in float64 arithmetic
and truncated to an int by `safe_int` (`database.py` line 364). -/
def teamValueRoundTrip (v : ℤ) : ℤ :=
  safe_int (.vFloat (fl64 (fracMul10 (fl64 (fracDiv10 (fl64 ⟨v, 1⟩)))))) 0

/-! ## Picks payload: captain / vice-captain resolution (`fpl_service.py` 196–230) -/

/-- One squad pick from the picks payload. -/
structure Pick where
  element : ℤ
  is_captain : Bool
  is_vice_captain : Bool
  deriving DecidableEq, Repr

/-- One catalog row of `fpl_footballers`, restricted to the lookup
fields. -/
structure Footballer where
  id : ℤ
  web_name : String
  deriving DecidableEq, Repr

/-- Catalog lookup for a display name: the `web_name` of the first catalog
row with the given id, else `"Unknown"` (an empty catalog — the
`dffootballers.empty` guard — also yields `"Unknown"`). -/
def lookupWebName (catalog : List Footballer) (pid : ℤ) : String :=
  match catalog.find? (fun f => f.id = pid) with
  | some f => f.web_name
  | none => "Unknown"

/-- Resolution of the picks flagged by one of the two captain flags: if
the filtered frame is empty, id `None` and name `"Unknown"`; otherwise the
id of the first flagged pick (`iloc[0]`), resolved against the catalog. -/
def resolveFlagged (catalog : List Footballer) (flagged : List Pick) :
    Option ℤ × String :=
  match flagged with
  | [] => (none, "Unknown")
  | p :: _ => (some p.element, lookupWebName catalog p.element)

/-- The picks payload of `entry/{id}/event/{gw}/picks/`:
the picks list and the payload's `active_chip` value (absent or JSON
`null` are both `none`). -/
structure PicksPayload where
  picks : List Pick
  active_chip : Option String
  deriving DecidableEq, Repr

/-- The captain and chip information extracted from one entry's picks. -/
structure CaptainInfo where
  captain_id : Option ℤ
  captain_name : String
  vice_captain_id : Option ℤ
  vice_captain_name : String
  active_chip : Option String
  deriving DecidableEq, Repr

/-- The defaults established before the picks fetch. -/
def defaultCaptainInfo : CaptainInfo :=
  { captain_id := none, captain_name := "Unknown",
    vice_captain_id := none, vice_captain_name := "Unknown",
    active_chip := none }

/-- Model of `fpl_service.py` lines 203–230: a missing payload or one lacking a
`picks` key leaves all defaults; an empty picks frame also leaves the
defaults (the chip is read inside the `if not dfplayergw.empty` block);
otherwise captain and vice-captain resolve independently over the flagged
picks, and the chip is the payload's value. -/
def picksInfo (payload : Option PicksPayload) (catalog : List Footballer) :
    CaptainInfo :=
  match payload with
  | none => defaultCaptainInfo
  | some p =>
    if p.picks = [] then defaultCaptainInfo
    else
      let c := resolveFlagged catalog (p.picks.filter (fun k => k.is_captain))
      let v := resolveFlagged catalog (p.picks.filter (fun k => k.is_vice_captain))
      { captain_id := c.1, captain_name := c.2,
        vice_captain_id := v.1, vice_captain_name := v.2,
        active_chip := p.active_chip }

/-! ## The per-league reconciliation pipeline (`fpl_service.py` 104–296)

`process_league_data_normalized` is modelled as a pure function of an
environment recording each external call's outcome, returning the
accumulated results together with the ordered trace of store calls it
issues. -/

/-- One standings row of `league_data['standings']['results']`. -/
structure LeagueEntry where
  entry : ℤ
  player_name : String
  entry_name : String
  total : ℤ
  deriving DecidableEq, Repr

/-- One row of a player history's `current` list, restricted to the
fields the pipeline reads. All are upstream integers. -/
structure HistRow where
  points : ℤ
  event_transfers_cost : ℤ
  value : ℤ
  bank : ℤ
  event_transfers : ℤ
  points_on_bench : ℤ
  deriving DecidableEq, Repr

/-- A history row after the service's column transforms: `pointsnet`
inserted as `points - event_transfers_cost`, and `value` divided by 10 in
float64 (`valueNorm`). -/
structure NormHistRow where
  points : ℤ
  event_transfers_cost : ℤ
  pointsnet : ℤ
  valueNorm : Frac
  bank : ℤ
  event_transfers : ℤ
  points_on_bench : ℤ
  deriving DecidableEq, Repr

/-- Transformation of `fpl_service.py` lines 191–194 applied to one history row. -/
def normHist (h : HistRow) : NormHistRow :=
  { points := h.points,
    event_transfers_cost := h.event_transfers_cost,
    pointsnet := h.points - h.event_transfers_cost,
    valueNorm := fl64 (fracDiv10 (fl64 ⟨h.value, 1⟩)),
    bank := h.bank,
    event_transfers := h.event_transfers,
    points_on_bench := h.points_on_bench }

/-- One chip event of a player history's `chips` list. -/
structure ChipEvent where
  name : String
  event : ℤ
  deriving DecidableEq, Repr

/-- A player-history payload with a `current` key (the absence of the key
or an empty `{}` payload is modelled as `none` at the call site). -/
structure PlayerHistory where
  current : List HistRow
  chips : List ChipEvent
  deriving DecidableEq, Repr

/-- One row of the accumulated `dfresults` frame: the flat
per-(league, entry, gameweek) record the service builds (lines 232–251).
The stacked per-gameweek columns `X_{k}` are represented by `history`,
whose position `k - 1` holds the columns suffixed `_k`. -/
structure ResultRow where
  player_name : String
  team_name : String
  player_entry : ℤ
  player_points : ℤ
  history : List NormHistRow
  captain : String
  vice_captain : String
  captain_id : Option ℤ
  vice_captain_id : Option ℤ
  active_chip : Option String
  league_id : ℤ
  gameweek : ℤ
  deriving DecidableEq, Repr

/-- One row of the accumulated `dfresultschips` frame (lines 258–266). -/
structure ChipRow where
  player_name : String
  player_points : ℤ
  name : String
  event : ℤ
  league_id : ℤ
  entry_id : ℤ
  deriving DecidableEq, Repr

/-- The outcomes of every external interaction one run can make. Store
stages record the success boolean the database layer reports; upstream
fetches record the parsed payload (`none` = empty/failed result). -/
structure Env where
  current_gw : ℤ
  league_data : Option (String × List LeagueEntry)
  league_info_success : Bool
  players_success : Bool
  memberships_success : Bool
  footballers : List Footballer
  footballers_success : Bool
  history : ℤ → Option PlayerHistory
  picks : ℤ → Option PicksPayload
  raises : ℤ → Bool
  gw_store_success : Bool
  chip_store_success : Bool

/-- A store call issued by the service layer, in issue order. -/
inductive StoreCall where
  | leagueInfo
  | globalPlayers
  | memberships
  | footballers
  | gameweekData (rows : ℕ)
  | chipUsage (rows : ℕ)
  deriving DecidableEq, Repr

/-- The body of the per-entry loop (`fpl_service.py` lines 177–274) for
one standings row: `none` models the `continue`-after-failure paths
(history fetch empty or lacking `current`, empty current-season frame, or
an exception raised while processing the entry); otherwise the entry's
`ResultRow` and its chip rows. -/
def processOneEntry (env : Env) (league_id : ℤ) (e : LeagueEntry) :
    Option (ResultRow × List ChipRow) :=
  if env.raises e.entry then none
  else
    match env.history e.entry with
    | none => none
    | some ph =>
      match ph.current with
      | [] => none
      | _ =>
        let info := picksInfo (env.picks e.entry) env.footballers
        let row : ResultRow :=
          { player_name := e.player_name, team_name := e.entry_name,
            player_entry := e.entry, player_points := e.total,
            history := ph.current.map normHist,
            captain := info.captain_name, vice_captain := info.vice_captain_name,
            captain_id := info.captain_id, vice_captain_id := info.vice_captain_id,
            active_chip := info.active_chip,
            league_id := league_id, gameweek := env.current_gw }
        let chips := ph.chips.map (fun c =>
          { player_name := e.player_name, player_points := e.total,
            name := c.name, event := c.event,
            league_id := league_id, entry_id := e.entry : ChipRow })
        some (row, chips)

/-- The loop accumulator: results, chips, success and failure counters. -/
structure LoopState where
  rows : List ResultRow
  chips : List ChipRow
  succeeded : ℕ
  failed : ℕ
  deriving DecidableEq, Repr

/-- The per-entry loop: sequential fold over the standings rows, each
failure incrementing the failure counter and the loop continuing. -/
def entryLoop (env : Env) (league_id : ℤ) (entries : List LeagueEntry) :
    LoopState :=
  entries.foldl
    (fun st e =>
      match processOneEntry env league_id e with
      | some rc =>
        { rows := st.rows ++ [rc.1], chips := st.chips ++ rc.2,
          succeeded := st.succeeded + 1, failed := st.failed }
      | none =>
        { rows := st.rows, chips := st.chips,
          succeeded := st.succeeded, failed := st.failed + 1 })
    { rows := [], chips := [], succeeded := 0, failed := 0 }

/-- The outcome of one run: the returned frames, the counters, and the
ordered trace of store calls. -/
structure RunResult where
  rows : List ResultRow
  chips : List ChipRow
  succeeded : ℕ
  failed : ℕ
  trace : List StoreCall
  deriving Repr

/-- Model of `FPLService.process_league_data_normalized`. Stage order follows the
source: league data check, league-info upsert, standings-count check,
global-players upsert (fatal on failure), memberships, footballers,
per-entry loop, then the gameweek upsert and — only when gameweek rows
exist — the chip upsert. -/
def processLeague (env : Env) (league_id : ℤ) (store_in_db : Bool) :
    RunResult :=
  match env.league_data with
  | none => { rows := [], chips := [], succeeded := 0, failed := 0, trace := [] }
  | some ld =>
    let t1 : List StoreCall := if store_in_db then [.leagueInfo] else []
    if ld.2 = [] then
      { rows := [], chips := [], succeeded := 0, failed := 0, trace := t1 }
    else if store_in_db && !env.players_success then
      { rows := [], chips := [], succeeded := 0, failed := 0,
        trace := t1 ++ [.globalPlayers] }
    else
      let t2 := t1 ++ (if store_in_db then [.globalPlayers, .memberships] else [])
      let t3 := t2 ++
        (if store_in_db && !env.footballers.isEmpty then [.footballers] else [])
      let st := entryLoop env league_id ld.2
      let t4 := t3 ++
        (if store_in_db && !st.rows.isEmpty then
          .gameweekData st.rows.length ::
            (if !st.chips.isEmpty then [.chipUsage st.chips.length] else [])
         else [])
      { rows := st.rows, chips := st.chips,
        succeeded := st.succeeded, failed := st.failed, trace := t4 }

/-! ## The storage entry points of `database.py` -/

/-- A database call issued by a storage entry point. -/
inductive DbCall where
  | upsertGlobalPlayers (rows : ℕ)
  | insertGlobalPlayer (entry_id : ℤ)
  | updateGlobalPlayer (entry_id : ℤ)
  | upsertChips (rows : ℕ)
  | upsertGameweek (rows : ℕ)
  deriving DecidableEq, Repr

/-- A `global_players` record (`store_global_players` lines 106–112). -/
structure PlayerRecord where
  entry_id : ℤ
  player_name : String
  current_team_name : String
  deriving DecidableEq, Repr

/-- The outcome of one individual insert attempt: success, a
duplicate-key constraint violation, or another error. -/
inductive InsertOutcome where
  | ok
  | dupKey
  | err
  deriving DecidableEq, Repr

/-- Model of `FPLDatabase._store_players_individually`: per-record insert; on a
duplicate key, an update-by-key (whose failure is swallowed by the
per-player handler); success iff at least one record went through. -/
def storePlayersIndividually (insertRes : ℤ → InsertOutcome)
    (updateOk : ℤ → Bool) (records : List PlayerRecord) : Bool × List DbCall :=
  let st := records.foldl
    (fun (acc : ℕ × List DbCall) r =>
      match insertRes r.entry_id with
      | .ok => (acc.1 + 1, acc.2 ++ [.insertGlobalPlayer r.entry_id])
      | .dupKey =>
        if updateOk r.entry_id then
          (acc.1 + 1,
            acc.2 ++ [.insertGlobalPlayer r.entry_id, .updateGlobalPlayer r.entry_id])
        else
          (acc.1,
            acc.2 ++ [.insertGlobalPlayer r.entry_id, .updateGlobalPlayer r.entry_id])
      | .err => (acc.1, acc.2 ++ [.insertGlobalPlayer r.entry_id]))
    (0, [])
  (decide (0 < st.1), st.2)

/-- Model of `FPLDatabase.store_global_players`: an empty frame is a vacuous
success with no call; otherwise a bulk upsert (`bulkResult` is the number
of returned rows, `none` modelling a raised bulk error), falling back to
individual inserts. -/
def store_global_players (bulkResult : Option ℕ) (insertRes : ℤ → InsertOutcome)
    (updateOk : ℤ → Bool) (players : List LeagueEntry) : Bool × List DbCall :=
  if players = [] then (true, [])
  else
    let records := players.map (fun p =>
      { entry_id := p.entry, player_name := p.player_name,
        current_team_name := p.entry_name : PlayerRecord })
    if records = [] then (false, [])
    else
      match bulkResult with
      | some _ => (true, [.upsertGlobalPlayers records.length])
      | none =>
        let ind := storePlayersIndividually insertRes updateOk records
        (ind.1, .upsertGlobalPlayers records.length :: ind.2)

/-- A `chip_usage_new` record (`store_chip_usage_normalized` 408–417). -/
structure ChipRecord where
  league_id : ℤ
  entry_id : ℤ
  chip_name : String
  gameweek_used : ℤ
  deriving DecidableEq, Repr

/-- Model of `FPLDatabase.store_chip_usage_normalized`: an empty frame is a
vacuous success with no call; otherwise one upsert, `True` on any
non-raising result and `False` on a raised error (`none`). -/
def store_chip_usage_normalized (upsertRes : Option ℕ) (chips : List ChipRow) :
    Bool × List DbCall :=
  if chips = [] then (true, [])
  else
    let records := chips.map (fun c =>
      { league_id := c.league_id, entry_id := c.entry_id,
        chip_name := c.name, gameweek_used := c.event : ChipRecord })
    match upsertRes with
    | some _ => (true, [.upsertChips records.length])
    | none => (false, [.upsertChips records.length])

/-- A `gameweek_data_new` record (`store_gameweek_data_normalized`
lines 356–374). -/
structure GameweekRecord where
  league_id : ℤ
  entry_id : ℤ
  gameweek : ℤ
  points : ℤ
  total_points : ℤ
  points_net : ℤ
  bank : ℤ
  team_value : ℤ
  transfers : ℤ
  transfers_cost : ℤ
  points_on_bench : ℤ
  captain_id : Option ℤ
  captain_name : Option String
  vice_captain_id : Option ℤ
  vice_captain_name : Option String
  active_chip : Option String
  deriving DecidableEq, Repr

/-- Lookup `row.get(f'X_{gw}')` on the stacked frame: the history row at
position `gw - 1`, or `None` when that column is absent. -/
def histAt (h : List NormHistRow) (gw : ℤ) : Option NormHistRow :=
  if 1 ≤ gw then h.get? (gw - 1).toNat else none

/-- An optional integer field as the Python value handed to `safe_int`. -/
def optInt (o : Option ℤ) : PyVal :=
  match o with
  | some n => .vInt n
  | none => .vNone

/-- The record construction of `store_gameweek_data_normalized`
(lines 340–377) for one row of the service's frame, including the
acceptance filter: the record enters the batch only if both its coerced
`entry_id` and `league_id` are non-zero (Python truthiness). -/
def toGameweekRecord (r : ResultRow) : Option GameweekRecord :=
  let current_gameweek := safe_int (.vInt r.gameweek) 1
  let active_chip := normalizeActiveChip
    (match r.active_chip with
     | some s => .scalar s
     | none => .null)
  let captain_id := r.captain_id.map (fun n => safe_int (.vInt n) 0)
  let vice_captain_id := r.vice_captain_id.map (fun n => safe_int (.vInt n) 0)
  let h := histAt r.history current_gameweek
  let rec0 : GameweekRecord :=
    { league_id := safe_int (.vInt r.league_id) 0,
      entry_id := safe_int (.vInt r.player_entry) 0,
      gameweek := current_gameweek,
      points := safe_int (optInt (h.map (fun x => x.points))) 0,
      total_points := safe_int (.vInt r.player_points) 0,
      points_net := safe_int (optInt (h.map (fun x => x.pointsnet))) 0,
      bank := safe_int (optInt (h.map (fun x => x.bank))) 0,
      team_value :=
        match h with
        | some x => safe_int (.vFloat (fl64 (fracMul10 x.valueNorm))) 0
        | none => safe_int (.vInt 0) 0,
      transfers := safe_int (optInt (h.map (fun x => x.event_transfers))) 0,
      transfers_cost := safe_int (optInt (h.map (fun x => x.event_transfers_cost))) 0,
      points_on_bench := safe_int (optInt (h.map (fun x => x.points_on_bench))) 0,
      captain_id := captain_id,
      captain_name := safe_str (some r.captain),
      vice_captain_id := vice_captain_id,
      vice_captain_name := safe_str (some r.vice_captain),
      active_chip := active_chip }
  if rec0.entry_id ≠ 0 ∧ rec0.league_id ≠ 0 then some rec0 else none

/-- Model of `FPLDatabase.store_gameweek_data_normalized`: build the filtered
batch; an empty batch returns `False` with no call; otherwise one upsert,
returning whether the store reported at least one row (`none` models a
raised error). -/
def store_gameweek_data_normalized (upsertRes : Option ℕ)
    (rows : List ResultRow) : Bool × List DbCall :=
  let data := rows.filterMap toGameweekRecord
  if data = [] then (false, [])
  else
    match upsertRes with
    | some n => (decide (0 < n), [.upsertGameweek data.length])
    | none => (false, [.upsertGameweek data.length])

/-! ## Concrete instances used to instantiate the theorems below -/

/-- A history row with all fields zero. -/
def zeroHist : HistRow :=
  { points := 0, event_transfers_cost := 0, value := 0, bank := 0,
    event_transfers := 0, points_on_bench := 0 }

/-- An environment whose global-players upsert reports failure. -/
def envPlayersFail : Env :=
  { current_gw := 1,
    league_data := some ("League", [⟨1, "A", "TA", 0⟩]),
    league_info_success := true, players_success := false,
    memberships_success := true, footballers := [], footballers_success := true,
    history := fun _ => none, picks := fun _ => none, raises := fun _ => false,
    gw_store_success := true, chip_store_success := true }

/-- An environment for a fully successful two-entry run. -/
def envPlayersOk : Env :=
  { current_gw := 1,
    league_data := some ("League", [⟨1, "A", "TA", 0⟩, ⟨2, "B", "TB", 0⟩]),
    league_info_success := true, players_success := true,
    memberships_success := true, footballers := [], footballers_success := true,
    history := fun _ => some { current := [zeroHist], chips := [] },
    picks := fun _ => none, raises := fun _ => false,
    gw_store_success := true, chip_store_success := true }

/-- An environment in which exactly entry 3's history fetch fails. -/
def envThirdFails : Env :=
  { current_gw := 1, league_data := none,
    league_info_success := true, players_success := true,
    memberships_success := true, footballers := [], footballers_success := true,
    history := fun n =>
      if n = 3 then none else some { current := [zeroHist], chips := [] },
    picks := fun _ => none, raises := fun _ => false,
    gw_store_success := true, chip_store_success := true }

/-- The k-th standings entry of the five-entry batch. -/
def batchEntry (k : ℤ) : LeagueEntry :=
  { entry := k, player_name := "P", entry_name := "T", total := 0 }

/-- The record the k-th entry of the five-entry batch normalizes to. -/
def batchRow (k : ℤ) : ResultRow :=
  { player_name := "P", team_name := "T", player_entry := k, player_points := 0,
    history := [normHist zeroHist],
    captain := "Unknown", vice_captain := "Unknown",
    captain_id := none, vice_captain_id := none, active_chip := none,
    league_id := 8, gameweek := 1 }

/-- A picks payload with one captain and one vice-captain flagged. -/
def payloadOneEach : PicksPayload :=
  { picks := [{ element := 42, is_captain := true, is_vice_captain := false },
              { element := 43, is_captain := false, is_vice_captain := true }],
    active_chip := none }

/-- A picks payload with two picks flagged captain. -/
def payloadTwoCaptains : PicksPayload :=
  { picks := [{ element := 7, is_captain := true, is_vice_captain := false },
              { element := 9, is_captain := true, is_vice_captain := false }],
    active_chip := none }

/-- A service-frame row whose league id coerces to zero, so the
gameweek-store acceptance filter drops it. -/
def rowLeagueZero : ResultRow :=
  { player_name := "X", team_name := "Y", player_entry := 5, player_points := 0,
    history := [], captain := "Unknown", vice_captain := "Unknown",
    captain_id := none, vice_captain_id := none, active_chip := none,
    league_id := 0, gameweek := 1 }

/-! ## Theorems -/

/-- Helper: the positive-points query holds iff a matching row exists. -/
theorem queryCurrentPositive_eq_true (store : List GWRow) (league gw : ℤ) :
    queryCurrentPositive store league gw = true ↔
      ∃ r ∈ store, r.league_id = league ∧ r.gameweek = gw ∧ 0 < r.points := by
  simp [queryCurrentPositive, List.any_eq_true]

/-- Helper: the any-row query holds iff a matching row exists. -/
theorem queryAnyAt_eq_true (store : List GWRow) (league gw : ℤ) :
    queryAnyAt store league gw = true ↔
      ∃ r ∈ store, r.league_id = league ∧ r.gameweek = gw := by
  simp [queryAnyAt, List.any_eq_true]

/-- C1: with no explicit gameweek, the selector returns the upstream
current gameweek `c` if some persisted row for the league at `c` has
strictly positive points; otherwise `max 1 (c - 1)` if the store has any
row for the league at that gameweek; otherwise `c` itself. -/
theorem c1_smart_gameweek_selection (store : List GWRow) (league c : ℤ)
    (hc : 0 < c) :
    get_smart_gameweek_for_standings store (some c) league none =
      if ∃ r ∈ store, r.league_id = league ∧ r.gameweek = c ∧ 0 < r.points then c
      else if ∃ r ∈ store, r.league_id = league ∧ r.gameweek = max 1 (c - 1) then
        max 1 (c - 1)
      else c := by
  have hc0 : c ≠ 0 := by omega
  have hor : pyOr (some c) 1 = c := by simp [pyOr, hc0]
  simp only [get_smart_gameweek_for_standings, smartSelect, hor]
  by_cases h1 : ∃ r ∈ store, r.league_id = league ∧ r.gameweek = c ∧ 0 < r.points
  · rw [if_pos ((queryCurrentPositive_eq_true store league c).2 h1), if_pos h1]
  · rw [if_neg (fun hq => h1 ((queryCurrentPositive_eq_true store league c).1 hq)),
      if_neg h1]
    by_cases h2 : ∃ r ∈ store, r.league_id = league ∧ r.gameweek = max 1 (c - 1)
    · rw [if_pos ((queryAnyAt_eq_true store league (max 1 (c - 1))).2 h2), if_pos h2]
    · rw [if_neg (fun hq => h2 ((queryAnyAt_eq_true store league (max 1 (c - 1))).1 hq)),
        if_neg h2]

/-- C1 witness: the selector evaluated on a one-row store at current
gameweek 10. -/
theorem c1_smart_gameweek_selection_witness :
    0 < (10 : ℤ) ∧
      get_smart_gameweek_for_standings
          [{ league_id := 1, entry_id := 2, gameweek := 10, points := 5 }]
          (some 10) 1 none =
        if ∃ r ∈ [({ league_id := 1, entry_id := 2, gameweek := 10, points := 5 } : GWRow)],
            r.league_id = 1 ∧ r.gameweek = 10 ∧ 0 < r.points then 10
        else if ∃ r ∈ [({ league_id := 1, entry_id := 2, gameweek := 10, points := 5 } : GWRow)],
            r.league_id = 1 ∧ r.gameweek = max 1 (10 - 1) then max 1 (10 - 1)
        else 10 :=
  ⟨by decide,
    c1_smart_gameweek_selection
      [{ league_id := 1, entry_id := 2, gameweek := 10, points := 5 }] 1 10 (by decide)⟩

/-- C9 counterexample: an explicitly supplied gameweek 0 is falsy in the
guard `if requested_gameweek:`, so the selector does not return it
verbatim — with an empty store and upstream current gameweek 5 it
returns 5. -/
theorem c9_explicit_zero_not_verbatim :
    get_smart_gameweek_for_standings [] (some 5) 1 (some 0) ≠ 0 := by decide

/-- C9 (amended): for every explicitly supplied non-zero gameweek `g`,
the selector returns `g` verbatim, regardless of the store contents and
the upstream reading. -/
theorem c9_explicit_nonzero_verbatim (store : List GWRow) (upstream : Option ℤ)
    (league g : ℤ) (hg : g ≠ 0) :
    get_smart_gameweek_for_standings store upstream league (some g) = g := by
  simp [get_smart_gameweek_for_standings, hg]

/-- C9 witness: explicit gameweek 7 wins on an empty store. -/
theorem c9_explicit_nonzero_verbatim_witness :
    (7 : ℤ) ≠ 0 ∧ get_smart_gameweek_for_standings [] none 1 (some 7) = 7 :=
  ⟨by decide, c9_explicit_nonzero_verbatim [] none 1 7 (by decide)⟩

/-- C7 counterexample: a one-element list holding the empty string
normalizes to `None`, not to its bare element. -/
theorem c7_empty_string_not_bare :
    normalizeActiveChip (.list [some ""]) ≠ some "" := by decide

/-- C7 (amended): a one-element list normalizes to its bare element and a
bare scalar to itself — except that an empty-string element or scalar
normalizes to `None`, like the empty list and `None` themselves. -/
theorem c7_chip_normalization (s : String) (hs : s ≠ "") :
    normalizeActiveChip (.list [some s]) = some s ∧
    normalizeActiveChip (.list [none]) = none ∧
    normalizeActiveChip (.list []) = none ∧
    normalizeActiveChip .null = none ∧
    normalizeActiveChip (.scalar s) = some s ∧
    normalizeActiveChip (.list [some ""]) = none ∧
    normalizeActiveChip (.scalar "") = none := by
  simp [normalizeActiveChip, collapseChipList, safe_str, hs]

/-- C7 witness: the chip normalization evaluated at `"wildcard"`. -/
theorem c7_chip_normalization_witness :
    normalizeActiveChip (.list [some "wildcard"]) = some "wildcard" ∧
    normalizeActiveChip (.list [none]) = none ∧
    normalizeActiveChip (.list []) = none ∧
    normalizeActiveChip .null = none ∧
    normalizeActiveChip (.scalar "wildcard") = some "wildcard" ∧
    normalizeActiveChip (.list [some ""]) = none ∧
    normalizeActiveChip (.scalar "") = none :=
  c7_chip_normalization "wildcard" (by decide)

/-- C8: the safe integer conversion sends `None`, the empty string and
non-numeric strings — ASCII strings that both Python numeric parsers
reject, underscore and exponent forms included — to the caller-supplied
default, and the string `"3.0"` to the integer 3. The ASCII hypothesis
marks the model's scope: Python additionally accepts non-ASCII decimal
digits and whitespace, which the string model does not cover. -/
theorem c8_safe_int_conversion (d : ℤ) (s : String)
    (_hascii : ∀ c ∈ s.toList, c.toNat < 128)
    (hs : pythonIntOfString s = none ∧ pythonFloatOfString s = none) :
    safe_int .vNone d = d ∧ safe_int (.vStr "") d = d ∧
    safe_int (.vStr s) d = d ∧ safe_int (.vStr "3.0") d = 3 := by
  refine ⟨rfl, rfl, ?_, rfl⟩
  by_cases he : s = ""
  · simp [safe_int, he]
  · by_cases hdot : '.' ∈ s.data
    · simp [safe_int, String.toList, he, hdot, hs.2]
    · simp [safe_int, String.toList, he, hdot, hs.1]

/-- C8 witness: the conversion evaluated at default 7 and input `"abc"`. -/
theorem c8_safe_int_conversion_witness :
    safe_int .vNone 7 = 7 ∧ safe_int (.vStr "") 7 = 7 ∧
    safe_int (.vStr "abc") 7 = 7 ∧ safe_int (.vStr "3.0") 7 = 3 :=
  c8_safe_int_conversion 7 "abc" (by decide) ⟨by decide, by decide⟩

/-- C3: the team-value round trip is carried out in binary64 arithmetic
(pandas `value / 10`, then `value * 10` and `int(...)` on write), and that
arithmetic loses the value `v = 9007199254740943`: dividing by 10 rounds
to `900719925474094.25`, multiplying by 10 gives exactly
`9007199254740942.5`, whose ties-to-even rounding and truncation yield
`9007199254740942 ≠ v`. The spec's "round-trip must be lossless for
integral tenths" therefore fails on the code. -/
theorem c3_float_roundtrip_loses_a_value :
    teamValueRoundTrip 9007199254740943 = 9007199254740942 ∧
      (9007199254740942 : ℤ) ≠ 9007199254740943 := by decide

/-- C6 counterexample: the fallback return of `get_current_gameweek` after
retry exhaustion is the bare integer 1, equal to the return for an
API-verified bootstrap whose current event is gameweek 1 — nothing in the
return value distinguishes a fallback from a verified reading. -/
theorem c6_fallback_indistinguishable :
    serviceGetCurrentGW [none, none, none] (some (dbGetCurrentGW none)) =
      serviceGetCurrentGW [some [{ id := 1, is_current := true }]]
        (some (dbGetCurrentGW (some [{ id := 1, is_current := true }]))) := by decide

/-- C6 (amended): when no bootstrap event is flagged current, or every
fetch attempt (including the database client's own fallback fetch) fails,
`get_current_gameweek` returns the fallback value 1 — but as a plain
integer, indistinguishable from an API-verified reading of gameweek 1,
not via any distinguishable signal. -/
theorem c6_fallback_returns_one (events : List Event)
    (h : ∀ e ∈ events, e.is_current = false) (db_fallback : Option ℤ) :
    serviceGetCurrentGW [some events] db_fallback = 1 ∧
    serviceGetCurrentGW [none, none, none] (some (dbGetCurrentGW none)) = 1 ∧
    serviceGetCurrentGW [none, none, none] (some (dbGetCurrentGW none)) =
      serviceGetCurrentGW [some [{ id := 1, is_current := true }]] db_fallback := by
  have hfind : events.find? (fun e => e.is_current) = none := by
    rw [List.find?_eq_none]
    intro e he
    simp [h e he]
  exact ⟨by simp [serviceGetCurrentGW, gwFromEvents, hfind], rfl, rfl⟩

/-- C6 witness: the fallback evaluated on a bootstrap whose single event
is not current, with a failing database fallback fetch. -/
theorem c6_fallback_returns_one_witness :
    serviceGetCurrentGW [some [{ id := 3, is_current := false }]] none = 1 ∧
    serviceGetCurrentGW [none, none, none] (some (dbGetCurrentGW none)) = 1 ∧
    serviceGetCurrentGW [none, none, none] (some (dbGetCurrentGW none)) =
      serviceGetCurrentGW [some [{ id := 1, is_current := true }]] none :=
  c6_fallback_returns_one [{ id := 3, is_current := false }] (by decide) none

/-- C4 counterexample: a payload in which two picks are flagged captain is
not treated as unknown — the normalizer selects the first flagged pick's
id. -/
theorem c4_two_captains_not_unknown :
    (picksInfo (some payloadTwoCaptains) []).captain_id ≠ none ∧
    (picksInfo (some payloadTwoCaptains) []).captain_id = some 7 := by decide

/-- C4 (amended): with zero picks flagged captain the normalizer reports
unknown (id `None`, name `"Unknown"`); with one or more flagged it selects
the first flagged pick rather than treating multiples as unknown; and for
a uniquely flagged pick whose id misses the footballer catalog, the name
is `"Unknown"` but the id is still retained. The same holds for the
vice-captain flag. -/
theorem c4_captain_resolution (catalog : List Footballer)
    (payload : PicksPayload) (hne : payload.picks ≠ []) :
    ((payload.picks.filter (fun k => k.is_captain) = [] →
        (picksInfo (some payload) catalog).captain_id = none ∧
        (picksInfo (some payload) catalog).captain_name = "Unknown") ∧
      (∀ p rest, payload.picks.filter (fun k => k.is_captain) = p :: rest →
        (picksInfo (some payload) catalog).captain_id = some p.element ∧
        (picksInfo (some payload) catalog).captain_name =
          lookupWebName catalog p.element) ∧
      (∀ p, payload.picks.filter (fun k => k.is_captain) = [p] →
        catalog.find? (fun f => f.id = p.element) = none →
        (picksInfo (some payload) catalog).captain_id = some p.element ∧
        (picksInfo (some payload) catalog).captain_name = "Unknown")) ∧
    ((payload.picks.filter (fun k => k.is_vice_captain) = [] →
        (picksInfo (some payload) catalog).vice_captain_id = none ∧
        (picksInfo (some payload) catalog).vice_captain_name = "Unknown") ∧
      (∀ p rest, payload.picks.filter (fun k => k.is_vice_captain) = p :: rest →
        (picksInfo (some payload) catalog).vice_captain_id = some p.element ∧
        (picksInfo (some payload) catalog).vice_captain_name =
          lookupWebName catalog p.element) ∧
      (∀ p, payload.picks.filter (fun k => k.is_vice_captain) = [p] →
        catalog.find? (fun f => f.id = p.element) = none →
        (picksInfo (some payload) catalog).vice_captain_id = some p.element ∧
        (picksInfo (some payload) catalog).vice_captain_name = "Unknown")) := by
  simp only [picksInfo, hne, if_neg, ite_false]
  constructor
  · refine ⟨fun hz => ?_, fun p rest hp => ?_, fun p hp hmiss => ?_⟩
    · simp [hz, resolveFlagged]
    · simp [hp, resolveFlagged]
    · simp [hp, resolveFlagged, lookupWebName, hmiss]
  · refine ⟨fun hz => ?_, fun p rest hp => ?_, fun p hp hmiss => ?_⟩
    · simp [hz, resolveFlagged]
    · simp [hp, resolveFlagged]
    · simp [hp, resolveFlagged, lookupWebName, hmiss]

/-- C4 witness: the resolution evaluated on a payload with one captain
(id 42) and one vice-captain (id 43) flagged, against an empty catalog. -/
theorem c4_captain_resolution_witness :
    (picksInfo (some payloadOneEach) []).captain_id = some 42 ∧
    (picksInfo (some payloadOneEach) []).captain_name = "Unknown" ∧
    (picksInfo (some payloadOneEach) []).vice_captain_id = some 43 ∧
    (picksInfo (some payloadOneEach) []).vice_captain_name = "Unknown" := by
  obtain ⟨⟨-, -, hc⟩, ⟨-, -, hv⟩⟩ :=
    c4_captain_resolution [] payloadOneEach (by decide)
  obtain ⟨hc1, hc2⟩ :=
    hc { element := 42, is_captain := true, is_vice_captain := false } (by decide) rfl
  obtain ⟨hv1, hv2⟩ :=
    hv { element := 43, is_captain := false, is_vice_captain := true } (by decide) rfl
  exact ⟨hc1, hc2, hv1, hv2⟩

/-- C10: on an empty input batch `store_global_players` and
`store_chip_usage_normalized` return `True` without issuing any store
call, while `store_gameweek_data_normalized` returns `False` (with no
store call) whenever no row of its input passes the non-zero league-id
and entry-id acceptance filter — including an empty input. -/
theorem c10_empty_batch_semantics (bulkResult : Option ℕ)
    (insertRes : ℤ → InsertOutcome) (updateOk : ℤ → Bool)
    (chipRes gwRes : Option ℕ) (rows : List ResultRow)
    (hrows : ∀ r ∈ rows, r.league_id = 0 ∨ r.player_entry = 0) :
    store_global_players bulkResult insertRes updateOk [] = (true, []) ∧
    store_chip_usage_normalized chipRes [] = (true, []) ∧
    store_gameweek_data_normalized gwRes rows = (false, []) := by
  refine ⟨rfl, rfl, ?_⟩
  have hdata : rows.filterMap toGameweekRecord = [] := by
    rw [List.filterMap_eq_nil_iff]
    intro r hr
    rcases hrows r hr with h | h <;>
      simp [toGameweekRecord, safe_int, h]
  simp [store_gameweek_data_normalized, hdata]

/-- C10 witness: the three storage entry points evaluated on an empty
batch and on a one-row batch whose league id is zero. -/
theorem c10_empty_batch_semantics_witness :
    store_global_players none (fun _ => .err) (fun _ => false) [] = (true, []) ∧
    store_chip_usage_normalized none [] = (true, []) ∧
    store_gameweek_data_normalized (some 3) [rowLeagueZero] = (false, []) :=
  c10_empty_batch_semantics none (fun _ => .err) (fun _ => false) none (some 3)
    [rowLeagueZero] (by decide)

/-- C5: in the per-entry loop, one entry's failure (missing or empty
history, or an error raised during its processing — the `none` outcomes of
`processOneEntry`) increments the failure counter while the loop
continues: a batch of five entries where exactly the third fails yields
exactly the four successful records, in order and with the content each
entry produces on its own, and a failure count of 1. -/
theorem c5_third_entry_failure_isolated (env : Env) (league_id : ℤ)
    (e1 e2 e3 e4 e5 : LeagueEntry) (r1 r2 r4 r5 : ResultRow × List ChipRow)
    (h1 : processOneEntry env league_id e1 = some r1)
    (h2 : processOneEntry env league_id e2 = some r2)
    (h3 : processOneEntry env league_id e3 = none)
    (h4 : processOneEntry env league_id e4 = some r4)
    (h5 : processOneEntry env league_id e5 = some r5) :
    entryLoop env league_id [e1, e2, e3, e4, e5] =
      { rows := [r1.1, r2.1, r4.1, r5.1],
        chips := r1.2 ++ (r2.2 ++ (r4.2 ++ r5.2)),
        succeeded := 4, failed := 1 } := by
  simp [entryLoop, h1, h2, h3, h4, h5]

/-- C5 witness: the five-entry batch in which entry 3's history fetch
fails, evaluated concretely. -/
theorem c5_third_entry_failure_isolated_witness :
    entryLoop envThirdFails 8
        [batchEntry 1, batchEntry 2, batchEntry 3, batchEntry 4, batchEntry 5] =
      { rows := [batchRow 1, batchRow 2, batchRow 4, batchRow 5],
        chips := [], succeeded := 4, failed := 1 } := by
  have h := c5_third_entry_failure_isolated envThirdFails 8
    (batchEntry 1) (batchEntry 2) (batchEntry 3) (batchEntry 4) (batchEntry 5)
    (batchRow 1, []) (batchRow 2, []) (batchRow 4, []) (batchRow 5, [])
    rfl rfl rfl rfl rfl
  simpa using h

/-- C2: in a storage-enabled run, a reported failure of the GlobalPlayer
upsert stage aborts the run before the per-entry loop — no records are
produced, no failures counted, and no GameweekRecord write is attempted;
conversely, any GameweekRecord store call in the trace is preceded by a
GlobalPlayer store call and implies that stage reported success. -/
theorem c2_gameweek_writes_need_player_success (env : Env) (league_id : ℤ) :
    (env.players_success = false →
      (processLeague env league_id true).rows = [] ∧
      (processLeague env league_id true).chips = [] ∧
      (processLeague env league_id true).succeeded = 0 ∧
      (processLeague env league_id true).failed = 0 ∧
      ∀ n, StoreCall.gameweekData n ∉ (processLeague env league_id true).trace) ∧
    (∀ pre n post,
      (processLeague env league_id true).trace =
        pre ++ StoreCall.gameweekData n :: post →
      env.players_success = true ∧ StoreCall.globalPlayers ∈ pre) := by
  constructor
  · intro hfail
    rcases hld : env.league_data with - | ld
    · simp [processLeague, hld]
    · by_cases hne : ld.2 = []
      · simp [processLeague, hld, hne]
      · simp [processLeague, hld, hne, hfail]
  · intro pre n post h
    rcases hld : env.league_data with - | ld
    · simp [processLeague, hld] at h
    · by_cases hne : ld.2 = []
      · simp [processLeague, hld, hne] at h
        rcases pre with _ | ⟨a, pre⟩ <;> simp_all
      · cases hps : env.players_success with
        | false =>
          simp [processLeague, hld, hne, hps] at h
          rcases pre with _ | ⟨a, pre⟩
          · simp_all
          · rcases pre with _ | ⟨b, pre⟩ <;> simp_all
        | true =>
          refine ⟨rfl, ?_⟩
          simp only [processLeague, hld, hne, hps] at h
          simp only [if_neg hne, Bool.not_true, Bool.and_false, Bool.false_eq_true,
            if_false, if_true, List.cons_append, List.nil_append] at h
          rcases pre with - | ⟨a, pre⟩
          · simp at h
          · rcases pre with - | ⟨b, pre⟩
            · simp at h
            · simp only [List.cons_append, List.cons.injEq] at h
              simp [h.2.1.symm]

/-- C2 witness: the pipeline evaluated on a one-entry run whose
GlobalPlayer stage fails (no records, no gameweek write) and on a
successful two-entry run, where the gameweek write is preceded by the
GlobalPlayer call. -/
theorem c2_gameweek_writes_need_player_success_witness :
    (processLeague envPlayersFail 9 true).rows = [] ∧
    StoreCall.gameweekData 1 ∉ (processLeague envPlayersFail 9 true).trace ∧
    (envPlayersOk.players_success = true ∧
      StoreCall.globalPlayers ∈
        [StoreCall.leagueInfo, StoreCall.globalPlayers, StoreCall.memberships]) :=
  ⟨((c2_gameweek_writes_need_player_success envPlayersFail 9).1 rfl).1,
    ((c2_gameweek_writes_need_player_success envPlayersFail 9).1 rfl).2.2.2.2 1,
    (c2_gameweek_writes_need_player_success envPlayersOk 9).2
      [StoreCall.leagueInfo, StoreCall.globalPlayers, StoreCall.memberships] 2 []
      (by rfl)⟩

end FPL
